import Mathlib

/-!
# Audio2MidiFlow task-synchronization core: a shallow embedding

This file embeds the task registry (`src/frontend/src/store/useTaskStore.ts`),
the notification queue (`useUIStore`), the polling-cadence functions and the
cancel/upload mutation handlers (`useTasks.ts` / `useUpload.ts` hooks), and the
reconciler (`useRecentUploads.ts`), and proves properties of them.

Modelling conventions:
* TypeScript `string` timestamps (`created_at` is an ISO date string) are
  represented by their `Date.getTime()` value, an integer count of
  milliseconds, since every algorithm in scope consumes them only through
  `new Date(s).getTime()`.
* A TypeScript object-spread update `{...task, ...updates}` where `updates`
  may omit keys is represented by a record of `Option`-wrapped fields
  (`none` = key absent, `some v` = key present with value `v`); for a Task
  field that is itself optional, the wrapped type is `Option (Option _)`.
* JavaScript numbers occurring in the time-window arithmetic are represented
  by rationals, which is exact for the integer ranges involved.
* `Array.prototype.sort` with a comparator is a stable sort; it is modelled
  by `List.insertionSort` with the corresponding total relation.
-/

namespace Audio2MidiFlow

/-- `TaskStatus` from `src/frontend/src/types/index.ts`. -/
inductive TaskStatus where
  | pending
  | processing
  | completed
  | failed
  | cancelled
deriving DecidableEq, Repr

/-- `ProcessingStage` from `src/frontend/src/types/index.ts`. -/
inductive ProcessingStage where
  | queued
  | audio_loading
  | feature_extraction
  | pitch_detection
  | midi_generation
  | finalization
deriving DecidableEq, Repr

/-- The `Task` interface from `src/frontend/src/types/index.ts`.
`id` is the server-assigned numeric ordinal (the spec's `numeric_id`);
timestamp strings are represented by their millisecond values. -/
structure Task where
  id : Nat
  task_id : String
  original_filename : String
  status : TaskStatus
  progress : Nat
  processing_stage : Option ProcessingStage := none
  error_message : Option String := none
  file_size : Option Nat := none
  output_size : Option Nat := none
  created_at : Int := 0
  started_at : Option Int := none
  completed_at : Option Int := none
  estimated_completion : Option Int := none
  processing_time : Option Nat := none
  download_url : Option String := none
deriving DecidableEq, Repr

/-- A `Partial<Task>` value: each key may be absent (`none`) or present with a
value; keys whose Task type is already optional may be present-but-undefined
(`some none`). -/
structure TaskPatch where
  id : Option Nat := none
  task_id : Option String := none
  original_filename : Option String := none
  status : Option TaskStatus := none
  progress : Option Nat := none
  processing_stage : Option (Option ProcessingStage) := none
  error_message : Option (Option String) := none
  file_size : Option (Option Nat) := none
  output_size : Option (Option Nat) := none
  created_at : Option Int := none
  started_at : Option (Option Int) := none
  completed_at : Option (Option Int) := none
  estimated_completion : Option (Option Int) := none
  processing_time : Option (Option Nat) := none
  download_url : Option (Option String) := none
deriving DecidableEq, Repr

/-- The object spread `{ ...task, ...updates }` used by `updateTask` in
`src/frontend/src/store/useTaskStore.ts`: keys present in the patch overwrite,
absent keys leave the existing value. -/
def applyPatch (t : Task) (p : TaskPatch) : Task where
  id := p.id.getD t.id
  task_id := p.task_id.getD t.task_id
  original_filename := p.original_filename.getD t.original_filename
  status := p.status.getD t.status
  progress := p.progress.getD t.progress
  processing_stage := p.processing_stage.getD t.processing_stage
  error_message := p.error_message.getD t.error_message
  file_size := p.file_size.getD t.file_size
  output_size := p.output_size.getD t.output_size
  created_at := p.created_at.getD t.created_at
  started_at := p.started_at.getD t.started_at
  completed_at := p.completed_at.getD t.completed_at
  estimated_completion := p.estimated_completion.getD t.estimated_completion
  processing_time := p.processing_time.getD t.processing_time
  download_url := p.download_url.getD t.download_url

/-- A full `Task` used as the `updates` argument (e.g. `updateTask(taskId,
query.data.data)` in `useTaskWithEffects`): every key is present. -/
def taskAsPatch (t : Task) : TaskPatch where
  id := some t.id
  task_id := some t.task_id
  original_filename := some t.original_filename
  status := some t.status
  progress := some t.progress
  processing_stage := some t.processing_stage
  error_message := some t.error_message
  file_size := some t.file_size
  output_size := some t.output_size
  created_at := some t.created_at
  started_at := some t.started_at
  completed_at := some t.completed_at
  estimated_completion := some t.estimated_completion
  processing_time := some t.processing_time
  download_url := some t.download_url

/-- The mutable slice of `TaskState` in
`src/frontend/src/store/useTaskStore.ts` (the registry). -/
structure TaskState where
  tasks : List Task
  currentTask : Option Task
  isLoading : Bool
  error : Option String
deriving DecidableEq, Repr

/-- The store's initial state. -/
def initialTaskState : TaskState :=
  { tasks := [], currentTask := none, isLoading := false, error := none }

/-- `setTasks: (tasks) => set({ tasks })`. -/
def setTasks (st : TaskState) (ts : List Task) : TaskState :=
  { st with tasks := ts }

/-- `addTask: (task) => set((state) => ({ tasks: [task, ...state.tasks] }))`. -/
def addTask (st : TaskState) (t : Task) : TaskState :=
  { st with tasks := t :: st.tasks }

/-- `updateTask(taskId, updates)`: maps over `tasks`, spreading `updates` into
the task whose `task_id` matches, and patches `currentTask` as well when its
`task_id` matches. -/
def updateTask (st : TaskState) (taskId : String) (p : TaskPatch) : TaskState :=
  { st with
    tasks := st.tasks.map fun t =>
      if t.task_id = taskId then applyPatch t p else t
    currentTask :=
      match st.currentTask with
      | some c => if c.task_id = taskId then some (applyPatch c p) else some c
      | none => none }

/-- `setCurrentTask: (task) => set({ currentTask: task })`. -/
def setCurrentTask (st : TaskState) (t : Option Task) : TaskState :=
  { st with currentTask := t }

/-- `getActiveTasks`: tasks whose status is `pending` or `processing`. -/
def getActiveTasks (st : TaskState) : List Task :=
  st.tasks.filter fun t =>
    t.status == TaskStatus.pending || t.status == TaskStatus.processing

/-! ## Notification queue (`src/frontend/src/store/useUIStore.ts`, part_006) -/

/-- Notification kinds from the `Notification` interface in `useUIStore`. -/
inductive NotificationType where
  | success
  | error
  | warning
  | info
deriving DecidableEq, Repr

/-- The `Notification` interface: generated `id`, kind, `title`, optional
`message`, optional `duration`, and a `timestamp`. -/
structure Notification where
  id : String
  type : NotificationType
  title : String
  message : Option String := none
  duration : Option Int := none
  timestamp : Int := 0
deriving DecidableEq, Repr

/-- The mutable slice of `UIState` relevant to notifications and uploads. -/
structure UIState where
  notifications : List Notification
  isUploading : Bool
  uploadProgress : Nat
deriving DecidableEq, Repr

/-- The UI store's initial state. -/
def initialUIState : UIState :=
  { notifications := [], isUploading := false, uploadProgress := 0 }

/-- `addNotification`: builds `{ ...notification, id, timestamp }` with a
freshly generated random `id` and `Date.now()` timestamp and appends it to the
queue. The generator and the clock are modelled as the explicit inputs
`freshId` and `now`. (The scheduled auto-removal after `duration` milliseconds
is an eventual call to `removeNotification` with the same id.) -/
def addNotification (st : UIState) (freshId : String) (now : Int)
    (type : NotificationType) (title : String) (message : Option String)
    (duration : Option Int) : UIState :=
  { st with notifications :=
      st.notifications ++
        [{ id := freshId, type := type, title := title, message := message,
           duration := duration, timestamp := now }] }

/-- `removeNotification: (id) => set((state) => ({ notifications:
state.notifications.filter(n => n.id !== id) }))`. -/
def removeNotification (st : UIState) (id : String) : UIState :=
  { st with notifications := st.notifications.filter fun n => n.id ≠ id }

/-- `clearNotifications: () => set({ notifications: [] })`. -/
def clearNotifications (st : UIState) : UIState :=
  { st with notifications := [] }

/-- `setUploading: (uploading) => set({ isUploading: uploading })`. -/
def setUploading (st : UIState) (uploading : Bool) : UIState :=
  { st with isUploading := uploading }

/-- `setUploadProgress: (progress) => set({ uploadProgress: progress })`. -/
def setUploadProgress (st : UIState) (progress : Nat) : UIState :=
  { st with uploadProgress := progress }

/-! ## Polling cadence (`useTasks.ts` hooks, part_001) -/

/-- The `refetchInterval` callback of `useTasksWithEffects` (part_001 lines
39–49): given the latest query data (`none` when no snapshot has arrived),
return `some 2000` when some task in the snapshot has status `pending` or
`processing`, and `none` ("`false`", no automatic re-fetch) otherwise. -/
def listRefetchInterval (data : Option (List Task)) : Option Nat :=
  match data with
  | some tasks =>
      if tasks.any (fun t =>
          t.status == TaskStatus.pending || t.status == TaskStatus.processing)
      then some 2000 else none
  | none => none

/-- The `refetchInterval` callback of `useTask` / `useTaskWithEffects`
(part_001 lines 92–99 and 113–120): `some 2000` when the single task's status
is `processing` or `pending`, `none` otherwise. -/
def singleTaskRefetchInterval (data : Option Task) : Option Nat :=
  match data with
  | some t =>
      if t.status == TaskStatus.processing || t.status == TaskStatus.pending
      then some 2000 else none
  | none => none

/-! ## Reconciler (`useRecentUploads.ts`, part_003) -/

/-- Comparator of the `allTasks.sort((a, b) => new Date(b.created_at).getTime()
- new Date(a.created_at).getTime())` call: `a` sorts no later than `b` when
`b.created_at ≤ a.created_at` (descending recency). -/
def byCreatedAtDesc (a b : Task) : Prop :=
  b.created_at ≤ a.created_at

instance : DecidableRel byCreatedAtDesc := fun a b =>
  inferInstanceAs (Decidable (b.created_at ≤ a.created_at))

/-- The `mergedTasks` memo of `useRecentUploads` (part_003 lines 38–56): build
a lookup of API tasks by `task_id`, keep the local tasks whose `task_id` is
absent from it, concatenate local-only tasks with the API tasks, and sort the
result by `created_at` descending (stable, as `Array.prototype.sort` is). -/
def mergedTasks (localTasks apiTasks : List Task) : List Task :=
  let apiTaskIds := apiTasks.map Task.task_id
  let localOnlyTasks := localTasks.filter fun t => !(apiTaskIds.contains t.task_id)
  let allTasks := localOnlyTasks ++ apiTasks
  allTasks.insertionSort byCreatedAtDesc

/-- The time-window predicate of the `recentTasks` filter (part_003 lines
67–72): `hoursDiff = (now - created_at) / (1000 * 60 * 60)` and the task is
kept when `hoursDiff ≤ hours`. -/
def recentKeep (now : Int) (hours : ℚ) (t : Task) : Bool :=
  decide ((((now - t.created_at : Int) : ℚ)) / (1000 * 60 * 60) ≤ hours)

/-- `recentTasks`: the merged view filtered to the last `hours` hours. -/
def recentTasks (localTasks apiTasks : List Task) (now : Int) (hours : ℚ) :
    List Task :=
  (mergedTasks localTasks apiTasks).filter (recentKeep now hours)

/-- The `active` derivation of `useRecentUploads` (part_003 lines 59–64):
task ids of merged tasks whose status is `pending` or `processing`. -/
def activeTaskIds (localTasks apiTasks : List Task) : List String :=
  ((mergedTasks localTasks apiTasks).filter fun t =>
      t.status == TaskStatus.pending || t.status == TaskStatus.processing).map
    Task.task_id

/-! ## Single-task reconciliation effect (`useTaskWithEffects`, part_001) -/

/-- The data-arrival effect of `useTaskWithEffects` (part_001 lines 124–129):
when a single-task poll result arrives, the hook runs
`setCurrentTask(query.data.data); updateTask(taskId, query.data.data)` —
the full remote task object is spread over the registry entry. -/
def reconcileSingleTask (st : TaskState) (taskId : String) (remote : Task) :
    TaskState :=
  updateTask (setCurrentTask st (some remote)) taskId (taskAsPatch remote)

/-! ## Cancel mutation (`useCancelTask`, part_001 lines 155–181)

The `useMutation` call registers only `mutationFn`, `onSuccess` and `onError`;
it registers **no** `onMutate` handler, so between firing the mutation and the
settlement of the remote call no store mutation occurs. The two settlement
handlers are modelled below; each returns the new task-store state together
with the notification payload passed to `addNotification`. -/

/-- The payload handed to `addNotification` (type, title, message). -/
structure NotificationInput where
  type : NotificationType
  title : String
  message : String
deriving DecidableEq, Repr

/-- The literal `{ status: 'cancelled' }` patch of `useCancelTask.onSuccess`. -/
def cancelledPatch : TaskPatch :=
  { status := some TaskStatus.cancelled }

/-- `useCancelTask.onSuccess`: `updateTask(taskId, { status: 'cancelled' })`,
then invalidate the detail and list queries, then a success notification. -/
def useCancelTaskOnSuccess (st : TaskState) (taskId : String) :
    TaskState × NotificationInput :=
  (updateTask st taskId cancelledPatch,
   { type := NotificationType.success, title := "Task cancelled",
     message := "Task " ++ taskId ++ " has been cancelled successfully." })

/-- `useCancelTask.onError`: only an error notification; the task store is not
touched. -/
def useCancelTaskOnError (st : TaskState) (_taskId : String)
    (errMessage : String) : TaskState × NotificationInput :=
  (st,
   { type := NotificationType.error, title := "Failed to cancel task",
     message := errMessage })

/-- One complete cancel mutation cycle: nothing happens to the task store
before the remote call settles (no `onMutate` is registered), then exactly one
of the two settlement handlers runs according to the remote outcome. -/
def useCancelTaskFlow (st : TaskState) (taskId : String) (succeeded : Bool)
    (errMessage : String) : TaskState × NotificationInput :=
  if succeeded then useCancelTaskOnSuccess st taskId
  else useCancelTaskOnError st taskId errMessage

/-! ## Upload mutation (`useUploadFile`, part_002 lines 22–76) -/

/-- The fields of the upload response's `data` consumed by
`useUploadFile.onSuccess` (`UploadResponse['data']`, all optional in the
type). `status` is read through an `as any` cast; the branch is only taken
when `task_id` is present. -/
structure UploadData where
  task_id : Option String := none
  status : TaskStatus := TaskStatus.pending
  original_filename : Option String := none
  file_size : Option Nat := none
  created_at : Option Int := none
deriving DecidableEq, Repr

/-- `useUploadFile.onMutate`: `setUploading(true); setUploadProgress(0);`
and an info notification. The task store is not touched — no task is inserted
before the remote call settles. -/
def useUploadFileOnMutate (st : TaskState) (ui : UIState) (freshId : String)
    (now : Int) : TaskState × UIState :=
  (st,
   addNotification (setUploadProgress (setUploading ui true) 0) freshId now
     NotificationType.info "Upload started"
     (some "Your file is being uploaded...") none)

/-- `useUploadFile.onSuccess`: when `data.data.task_id` is present, build
`newTask` from the response — `id: 0`, `task_id`, `original_filename ||
'Unknown'`, `status`, `progress: 0`, `file_size`, `created_at || now` — and
`addTask` it; in every case a success notification fires and the tasks query
is invalidated. -/
def useUploadFileOnSuccess (st : TaskState) (resp : UploadData) (now : Int) :
    TaskState :=
  match resp.task_id with
  | some tid =>
      addTask st
        { id := 0, task_id := tid,
          original_filename := resp.original_filename.getD "Unknown",
          status := resp.status, progress := 0,
          file_size := resp.file_size,
          created_at := resp.created_at.getD now }
  | none => st

/-- `useUploadFile.onError`: only an error notification; the task store is not
touched. -/
def useUploadFileOnError (st : TaskState) (errMessage : String) :
    TaskState × NotificationInput :=
  (st,
   { type := NotificationType.error, title := "Upload failed",
     message := errMessage })

/-! ## Concrete sample data for witnesses and counterexamples -/

/-- A pending task with id `"a"`. -/
def taskPendingA : Task :=
  { id := 1, task_id := "a", original_filename := "a.mp3",
    status := TaskStatus.pending, progress := 0, created_at := 10 }

/-- A completed task with id `"a"`. -/
def taskDoneA : Task :=
  { id := 1, task_id := "a", original_filename := "a.mp3",
    status := TaskStatus.completed, progress := 100, created_at := 10 }

/-- A remote snapshot copy of task `"a"` reporting status `pending`. -/
def remotePendingA : Task :=
  { id := 17, task_id := "a", original_filename := "a.mp3",
    status := TaskStatus.pending, progress := 0, created_at := 10 }

/-- A remote (confirmed) copy of task `"a"` reporting status `processing`. -/
def remoteProcessingA : Task :=
  { id := 17, task_id := "a", original_filename := "a.mp3",
    status := TaskStatus.processing, progress := 40, created_at := 10 }

/-- A local-only task with id `"c"`. -/
def taskLocalC : Task :=
  { id := 0, task_id := "c", original_filename := "c.mp3",
    status := TaskStatus.pending, progress := 0, created_at := 8 }

/-- A remote-only task with id `"d"`. -/
def taskRemoteD : Task :=
  { id := 4, task_id := "d", original_filename := "d.mp3",
    status := TaskStatus.completed, progress := 100, created_at := 5 }

/-- A second task carrying the duplicate id `"a"`. -/
def dupTaskA : Task :=
  { id := 2, task_id := "a", original_filename := "a2.mp3",
    status := TaskStatus.pending, progress := 0, created_at := 11 }

/-- A task created exactly at the 24-hour window boundary before time 0. -/
def taskAtBoundary : Task :=
  { id := 5, task_id := "e", original_filename := "e.mp3",
    status := TaskStatus.completed, progress := 100, created_at := -86400000 }

/-- A task created one millisecond beyond the 24-hour window before time 0. -/
def taskBeyondBoundary : Task :=
  { id := 6, task_id := "f", original_filename := "f.mp3",
    status := TaskStatus.completed, progress := 100, created_at := -86400001 }

/-- A registry holding tasks `"a"` (completed) and `"d"`, with task `"a"` as
the currently selected task. -/
def frameState : TaskState :=
  { tasks := [taskDoneA, taskRemoteD], currentTask := some taskPendingA,
    isLoading := false, error := none }

/-- A sample notification with id `"n1"`. -/
def noteOne : Notification :=
  { id := "n1", type := NotificationType.info, title := "one", timestamp := 1 }

/-- A sample notification with id `"n2"`. -/
def noteTwo : Notification :=
  { id := "n2", type := NotificationType.error, title := "two", timestamp := 2 }

/-! ## Theorems -/

/-- **C3.** For every snapshot, the polling policy returns a next interval of
exactly 2000 ms if and only if the snapshot contains at least one task with
status `pending` or `processing`, and returns "no refetch" (`none`) otherwise;
the single-task poll applies the same predicate to that one task's status. -/
theorem C3_poll_cadence (tasks : List Task) (t : Task) :
    (listRefetchInterval (some tasks) = some 2000 ↔
      ∃ x ∈ tasks,
        x.status = TaskStatus.pending ∨ x.status = TaskStatus.processing) ∧
    (listRefetchInterval (some tasks) = none ↔
      ¬ ∃ x ∈ tasks,
        x.status = TaskStatus.pending ∨ x.status = TaskStatus.processing) ∧
    (singleTaskRefetchInterval (some t) = some 2000 ↔
      (t.status = TaskStatus.pending ∨ t.status = TaskStatus.processing)) ∧
    (singleTaskRefetchInterval (some t) = none ↔
      ¬ (t.status = TaskStatus.pending ∨ t.status = TaskStatus.processing)) := by
  refine ⟨?_, ?_, ?_, ?_⟩ <;>
    simp only [listRefetchInterval, singleTaskRefetchInterval] <;>
    split_ifs with h <;>
    simp_all [List.any_eq_true, or_comm]

/-- Mapping the conditional patch of `updateTask` over a list containing no
task with the targeted id changes nothing. -/
theorem map_patchIf_of_not_mem (l : List Task) (taskId : String) (p : TaskPatch)
    (h : taskId ∉ l.map Task.task_id) :
    (l.map fun t => if t.task_id = taskId then applyPatch t p else t) = l := by
  induction l with
  | nil => rfl
  | cons a l ih =>
      simp only [List.map_cons, List.mem_cons, not_or] at h
      rw [List.map_cons, if_neg fun hc => h.1 hc.symm, ih h.2]

/-- **C8.** For every registry state, unknown `task_id` and partial update,
`updateTask` is a no-op on the task list: it does not throw (it is a total
function), does not insert, and leaves the task count and contents
unchanged. -/
theorem C8_patch_unknown_noop (st : TaskState) (taskId : String)
    (p : TaskPatch) (h : taskId ∉ st.tasks.map Task.task_id) :
    (updateTask st taskId p).tasks = st.tasks :=
  map_patchIf_of_not_mem st.tasks taskId p h

/-- Witness for C8 at a concrete registry and unknown id. -/
theorem C8_patch_unknown_noop_witness :
    "zzz" ∉ ({ initialTaskState with
        tasks := [taskPendingA, taskRemoteD] } : TaskState).tasks.map
        Task.task_id ∧
    (updateTask { initialTaskState with tasks := [taskPendingA, taskRemoteD] }
        "zzz" cancelledPatch).tasks =
      [taskPendingA, taskRemoteD] :=
  ⟨by decide,
   C8_patch_unknown_noop
     { initialTaskState with tasks := [taskPendingA, taskRemoteD] } "zzz"
     cancelledPatch (by decide)⟩

/-- **C9.** `removeNotification` is idempotent: removing an absent id (for
example a second removal of the same id, or a removal after the scheduled
auto-expiry already fired) never throws, never removes a different entry, and
leaves the queue unchanged; two successive removals equal a single one. -/
theorem C9_remove_idempotent (ui : UIState) (id : String) :
    removeNotification (removeNotification ui id) id =
      removeNotification ui id ∧
    (∀ n ∈ ui.notifications, n.id ≠ id →
      n ∈ (removeNotification ui id).notifications) ∧
    (id ∉ ui.notifications.map Notification.id → removeNotification ui id = ui) := by
  refine ⟨?_, ?_, ?_⟩
  · simp [removeNotification, List.filter_filter]
  · intro n hn hne
    exact List.mem_filter.mpr ⟨hn, by simpa using hne⟩
  · intro h
    have hf : (ui.notifications.filter fun n => n.id ≠ id) = ui.notifications := by
      rw [List.filter_eq_self]
      intro a ha
      have : a.id ≠ id := fun hc => h (List.mem_map.mpr ⟨a, ha, hc⟩)
      simpa using this
    show ({ ui with
      notifications := ui.notifications.filter fun n => n.id ≠ id } : UIState) = ui
    rw [hf]

/-- Witness for C9 at a concrete queue: removing `"n1"` twice equals removing
it once, `"n2"` survives, and removing the absent `"n3"` is the identity. -/
theorem C9_remove_idempotent_witness :
    (removeNotification
        (removeNotification { initialUIState with
          notifications := [noteOne, noteTwo] } "n1") "n1" =
      removeNotification { initialUIState with
          notifications := [noteOne, noteTwo] } "n1") ∧
    noteTwo ∈ (removeNotification { initialUIState with
        notifications := [noteOne, noteTwo] } "n1").notifications ∧
    removeNotification { initialUIState with
        notifications := [noteOne, noteTwo] } "n3" =
      { initialUIState with notifications := [noteOne, noteTwo] } :=
  ⟨(C9_remove_idempotent
      { initialUIState with notifications := [noteOne, noteTwo] } "n1").1,
   (C9_remove_idempotent
      { initialUIState with notifications := [noteOne, noteTwo] } "n1").2.1
     noteTwo (by decide) (by decide),
   (C9_remove_idempotent
      { initialUIState with notifications := [noteOne, noteTwo] } "n3").2.2
     (by decide)⟩

/-- **C10.** `updateTask` preserves the number and relative order of tasks and
leaves every task with a different `task_id` unchanged field-for-field; only
the matching task — and the `currentTask` pointer when its `task_id` matches —
receive the patch, and the unrelated store fields are untouched. -/
theorem C10_updateTask_frame (st : TaskState) (taskId : String)
    (p : TaskPatch) :
    ((updateTask st taskId p).tasks.length = st.tasks.length) ∧
    (∀ (i : ℕ) (t : Task), st.tasks[i]? = some t → t.task_id ≠ taskId →
      (updateTask st taskId p).tasks[i]? = some t) ∧
    (∀ (i : ℕ) (t : Task), st.tasks[i]? = some t → t.task_id = taskId →
      (updateTask st taskId p).tasks[i]? = some (applyPatch t p)) ∧
    (∀ c : Task, st.currentTask = some c → c.task_id ≠ taskId →
      (updateTask st taskId p).currentTask = some c) ∧
    (∀ c : Task, st.currentTask = some c → c.task_id = taskId →
      (updateTask st taskId p).currentTask = some (applyPatch c p)) ∧
    (st.currentTask = none → (updateTask st taskId p).currentTask = none) ∧
    ((updateTask st taskId p).isLoading = st.isLoading) ∧
    ((updateTask st taskId p).error = st.error) := by
  refine ⟨by simp [updateTask], ?_, ?_, ?_, ?_, ?_, rfl, rfl⟩
  · intro i t hi hne
    show (st.tasks.map fun u =>
        if u.task_id = taskId then applyPatch u p else u)[i]? = some t
    rw [List.getElem?_map, hi]
    simp [if_neg hne]
  · intro i t hi ht
    show (st.tasks.map fun u =>
        if u.task_id = taskId then applyPatch u p else u)[i]? =
      some (applyPatch t p)
    rw [List.getElem?_map, hi]
    simp [if_pos ht]
  · intro c hc hne
    simp only [updateTask, hc]
    simp [hne]
  · intro c hc ht
    simp only [updateTask, hc]
    simp [ht]
  · intro hc
    simp only [updateTask, hc]

/-- Witness for C10 at a concrete registry: patching `"a"` leaves the
unrelated task `"d"` at its position unchanged, patches the entry `"a"`, and
patches the matching `currentTask`. -/
theorem C10_updateTask_frame_witness :
    ((updateTask frameState "a" cancelledPatch).tasks[1]? =
      some taskRemoteD) ∧
    ((updateTask frameState "a" cancelledPatch).tasks[0]? =
      some (applyPatch taskDoneA cancelledPatch)) ∧
    ((updateTask frameState "a" cancelledPatch).currentTask =
      some (applyPatch taskPendingA cancelledPatch)) :=
  ⟨(C10_updateTask_frame frameState "a" cancelledPatch).2.1
      1 taskRemoteD rfl (by decide),
   (C10_updateTask_frame frameState "a" cancelledPatch).2.2.1
      0 taskDoneA rfl (by decide),
   (C10_updateTask_frame frameState "a" cancelledPatch).2.2.2.2.1
      taskPendingA rfl (by decide)⟩

/-- The time-window predicate holds exactly when
`now - created_at ≤ hours * 3600000` (milliseconds). -/
theorem recentKeep_iff (now : Int) (hours : ℚ) (t : Task) :
    recentKeep now hours t = true ↔
      ((now - t.created_at : Int) : ℚ) ≤ hours * 3600000 := by
  simp only [recentKeep, decide_eq_true_eq]
  rw [div_le_iff₀ (by norm_num : (0 : ℚ) < 1000 * 60 * 60)]
  norm_num

/-- **C7.** The Reconciler keeps a task in the time-windowed view iff it is in
the merged view and `(now - created_at) ≤ hours * 3600000` milliseconds; the
boundary is inclusive: `created_at = T - hours*3600000` is kept and
`created_at = T - hours*3600000 - 1` is dropped. -/
theorem C7_window_inclusive :
    (∀ (lt rt : List Task) (now : Int) (hours : ℚ) (t : Task),
      t ∈ recentTasks lt rt now hours ↔
        t ∈ mergedTasks lt rt ∧ recentKeep now hours t = true) ∧
    (∀ (now : Int) (hours : ℚ) (t : Task),
      recentKeep now hours t = true ↔
        ((now - t.created_at : Int) : ℚ) ≤ hours * 3600000) ∧
    (∀ (T : Int) (hoursN : ℕ) (t : Task),
      t.created_at = T - hoursN * 3600000 →
        recentKeep T (hoursN : ℚ) t = true) ∧
    (∀ (T : Int) (hoursN : ℕ) (t : Task),
      t.created_at = T - hoursN * 3600000 - 1 →
        recentKeep T (hoursN : ℚ) t = false) := by
  refine ⟨?_, recentKeep_iff, ?_, ?_⟩
  · intro lt rt now hours t
    exact List.mem_filter
  · intro T hoursN t h
    rw [recentKeep_iff, h]
    push_cast
    ring_nf
    exact le_refl _
  · intro T hoursN t h
    rw [Bool.eq_false_iff, Ne, recentKeep_iff, h]
    push_cast
    intro habs
    linarith

/-- Witness for C7 at the concrete 24-hour boundary (now = 0): the task
created exactly 86400000 ms ago is kept, the one created 86400001 ms ago is
dropped, and membership in the filtered view decomposes as stated. -/
theorem C7_window_inclusive_witness :
    recentKeep 0 (24 : ℕ) taskAtBoundary = true ∧
    recentKeep 0 (24 : ℕ) taskBeyondBoundary = false ∧
    (taskAtBoundary ∈ recentTasks [taskAtBoundary] [] 0 24 ↔
      taskAtBoundary ∈ mergedTasks [taskAtBoundary] [] ∧
        recentKeep 0 24 taskAtBoundary = true) :=
  ⟨C7_window_inclusive.2.2.1 0 24 taskAtBoundary (by decide),
   C7_window_inclusive.2.2.2 0 24 taskBeyondBoundary (by decide),
   C7_window_inclusive.1 [taskAtBoundary] [] 0 24 taskAtBoundary⟩

/-- **C2.** For internally duplicate-free local list `L` and remote snapshot
`R`, the merged view contains each `task_id` at most once, contains every task
of `R`, contains every task of `L` whose `task_id` is absent from `R`, and any
merged task whose `task_id` occurs in `R` is the `R`-sourced copy. -/
theorem C2_merge_properties (L R : List Task)
    (hL : (L.map Task.task_id).Nodup) (hR : (R.map Task.task_id).Nodup) :
    ((mergedTasks L R).map Task.task_id).Nodup ∧
    (∀ t ∈ R, t ∈ mergedTasks L R) ∧
    (∀ t ∈ L, t.task_id ∉ R.map Task.task_id → t ∈ mergedTasks L R) ∧
    (∀ t ∈ mergedTasks L R, t.task_id ∈ R.map Task.task_id → t ∈ R) := by
  have hmem : ∀ x : Task, x ∈ mergedTasks L R ↔
      x ∈ (L.filter fun t => !((R.map Task.task_id).contains t.task_id)) ++ R :=
    fun x => List.mem_insertionSort byCreatedAtDesc
  have hperm : List.Perm (mergedTasks L R)
      ((L.filter fun t => !((R.map Task.task_id).contains t.task_id)) ++ R) :=
    List.perm_insertionSort byCreatedAtDesc _
  refine ⟨?_, ?_, ?_, ?_⟩
  · refine (hperm.map Task.task_id).nodup_iff.mpr ?_
    rw [List.map_append, List.nodup_append]
    refine ⟨hL.sublist ((List.filter_sublist L).map Task.task_id), hR, ?_⟩
    intro x hx hx'
    obtain ⟨t, ht, rfl⟩ := List.mem_map.mp hx
    have hkeep := List.of_mem_filter ht
    have : t.task_id ∉ R.map Task.task_id := by simpa using hkeep
    exact this hx'
  · intro t ht
    exact (hmem t).mpr (List.mem_append_right _ ht)
  · intro t ht hnot
    refine (hmem t).mpr (List.mem_append_left _ ?_)
    exact List.mem_filter.mpr ⟨ht, by simpa using hnot⟩
  · intro t ht hin
    rcases List.mem_append.mp ((hmem t).mp ht) with h | h
    · exfalso
      have hkeep := List.of_mem_filter h
      have : t.task_id ∉ R.map Task.task_id := by simpa using hkeep
      exact this hin
    · exact h

/-- Witness for C2 at a concrete merge: locals `[a(speculative), c]`, remotes
`[a(confirmed), d]` — ids of the merged view are duplicate-free, the confirmed
`a` and the remote `d` are present, the local-only `c` survives, and every
merged task with id `"a"` is the remote copy. -/
theorem C2_merge_properties_witness :
    ([taskPendingA, taskLocalC].map Task.task_id).Nodup ∧
    ([remoteProcessingA, taskRemoteD].map Task.task_id).Nodup ∧
    ((mergedTasks [taskPendingA, taskLocalC]
        [remoteProcessingA, taskRemoteD]).map Task.task_id).Nodup ∧
    remoteProcessingA ∈
      mergedTasks [taskPendingA, taskLocalC] [remoteProcessingA, taskRemoteD] ∧
    taskLocalC ∈
      mergedTasks [taskPendingA, taskLocalC] [remoteProcessingA, taskRemoteD] :=
  ⟨by decide, by decide,
   (C2_merge_properties [taskPendingA, taskLocalC]
      [remoteProcessingA, taskRemoteD] (by decide) (by decide)).1,
   (C2_merge_properties [taskPendingA, taskLocalC]
      [remoteProcessingA, taskRemoteD] (by decide) (by decide)).2.1
     remoteProcessingA (by decide),
   (C2_merge_properties [taskPendingA, taskLocalC]
      [remoteProcessingA, taskRemoteD] (by decide) (by decide)).2.2.1
     taskLocalC (by decide) (by decide)⟩

/-- **C1, counterexample.** The claim states that a reconciliation patch (the
single-task poll result written via `updateTask`) never changes a terminal
task's status to `pending` or `processing` and is suppressed for the status
field. At the concrete registry holding the completed task `"a"`, applying the
poll result that reports `"a"` as `pending` changes the stored status from
`completed` to `pending`: nothing is suppressed. -/
theorem C1_terminal_regression_counterexample :
    (({ initialTaskState with tasks := [taskDoneA] } : TaskState).tasks.map
        Task.status = [TaskStatus.completed]) ∧
    ((reconcileSingleTask { initialTaskState with tasks := [taskDoneA] } "a"
        remotePendingA).tasks.map Task.status = [TaskStatus.pending]) := by
  decide

/-- **C1, amended.** The single-task reconciliation effect spreads the whole
remote task over the matching registry entry, so the resulting status is the
remote status unconditionally — also when this regresses a terminal status to
`pending` or `processing`; no suppression happens for the status field. -/
theorem C1_reconcile_overwrites_status (st : TaskState) (taskId : String)
    (remote : Task) (i : ℕ) (t : Task) (hi : st.tasks[i]? = some t)
    (ht : t.task_id = taskId) :
    (((reconcileSingleTask st taskId remote).tasks[i]?).map Task.status) =
      some remote.status := by
  show ((st.tasks.map fun u =>
      if u.task_id = taskId then applyPatch u (taskAsPatch remote)
      else u)[i]?).map Task.status = some remote.status
  rw [List.getElem?_map, hi]
  simp [if_pos ht, applyPatch, taskAsPatch]

/-- Witness for the amended C1: the completed task `"a"` ends up `pending`
after reconciling with a remote copy that reports `pending`. -/
theorem C1_reconcile_overwrites_status_witness :
    ((reconcileSingleTask { initialTaskState with tasks := [taskDoneA] } "a"
        remotePendingA).tasks[0]?).map Task.status =
      some TaskStatus.pending :=
  C1_reconcile_overwrites_status
    { initialTaskState with tasks := [taskDoneA] } "a" remotePendingA 0
    taskDoneA rfl (by decide)

/-- **C4, counterexample.** The claim states that `cancel` patches the
registry entry to `cancelled` optimistically before the remote call resolves
and that, on failure, this `cancelled` status remains. At the concrete
registry holding the pending task `"a"`, the failed cancel flow leaves the
status `pending` — never `cancelled` — because `useCancelTask` registers no
`onMutate` handler and its `onError` handler does not touch the registry. -/
theorem C4_cancel_optimistic_counterexample :
    ((useCancelTaskFlow { initialTaskState with tasks := [taskPendingA] } "a"
        false "network error").1.tasks.map Task.status =
      [TaskStatus.pending]) ∧
    TaskStatus.pending ≠ TaskStatus.cancelled := by
  decide

/-- **C4, amended.** `cancel` patches the registry entry to `cancelled` only
in the success callback, after the remote call resolves successfully; when the
remote call fails, the registry is left exactly as it was and an error
Notification is emitted (no patch is ever applied on the failure path). -/
theorem C4_cancel_patches_on_success (st : TaskState) (taskId : String)
    (err : String) :
    ((useCancelTaskFlow st taskId false err).1 = st) ∧
    ((useCancelTaskFlow st taskId false err).2.type =
      NotificationType.error) ∧
    (∀ (i : ℕ) (t : Task), st.tasks[i]? = some t → t.task_id = taskId →
      (((useCancelTaskFlow st taskId true err).1.tasks[i]?).map Task.status) =
        some TaskStatus.cancelled) ∧
    ((useCancelTaskFlow st taskId true err).2.type =
      NotificationType.success) := by
  refine ⟨rfl, rfl, ?_, rfl⟩
  intro i t hi ht
  show ((st.tasks.map fun u =>
      if u.task_id = taskId then applyPatch u cancelledPatch
      else u)[i]?).map Task.status = some TaskStatus.cancelled
  rw [List.getElem?_map, hi]
  simp [if_pos ht, applyPatch, cancelledPatch]

/-- Witness for the amended C4: at the concrete registry holding the pending
task `"a"`, the failed flow is the identity on the store and the successful
flow marks `"a"` cancelled. -/
theorem C4_cancel_patches_on_success_witness :
    ((useCancelTaskFlow { initialTaskState with tasks := [taskPendingA] } "a"
        false "network error").1 =
      { initialTaskState with tasks := [taskPendingA] }) ∧
    (((useCancelTaskFlow { initialTaskState with tasks := [taskPendingA] } "a"
        true "network error").1.tasks[0]?).map Task.status =
      some TaskStatus.cancelled) :=
  ⟨(C4_cancel_patches_on_success
      { initialTaskState with tasks := [taskPendingA] } "a" "network error").1,
   (C4_cancel_patches_on_success
      { initialTaskState with tasks := [taskPendingA] } "a"
      "network error").2.2.1 0 taskPendingA rfl (by decide)⟩

/-- **C5, counterexample.** The claim states that the create (upload)
operation inserts a speculative `pending` task into the registry immediately,
before the remote upload call resolves. Starting from the empty store, the
pre-resolution phase (`onMutate`) leaves the task list empty — no speculative
task exists; furthermore the task eventually inserted by `onSuccess` carries
the status reported by the response (here `processing`), not a fixed
`pending`. -/
theorem C5_speculative_insert_counterexample :
    ((useUploadFileOnMutate initialTaskState initialUIState "n1" 0).1.tasks =
      []) ∧
    ((useUploadFileOnSuccess initialTaskState
        { task_id := some "u1", status := TaskStatus.processing } 0).tasks.map
        Task.status = [TaskStatus.processing]) := by
  decide

/-- **C5, amended.** The upload mutation touches only the UI store before the
remote call resolves (`onMutate` inserts no task) and inserts no task on
failure; the task is inserted at the front of the registry only by the success
callback, built from the response: numeric id `0`, `progress 0`, status and
remaining fields taken from the response (filename defaulting to `"Unknown"`,
creation time defaulting to the current time). -/
theorem C5_insert_after_success (st : TaskState) (ui : UIState) (fid : String)
    (now : Int) (err : String) (resp : UploadData) (tid : String)
    (h : resp.task_id = some tid) :
    ((useUploadFileOnMutate st ui fid now).1 = st) ∧
    ((useUploadFileOnError st err).1 = st) ∧
    ((useUploadFileOnSuccess st resp now).tasks =
      { id := 0, task_id := tid,
        original_filename := resp.original_filename.getD "Unknown",
        status := resp.status, progress := 0, file_size := resp.file_size,
        created_at := resp.created_at.getD now } :: st.tasks) := by
  refine ⟨rfl, rfl, ?_⟩
  simp only [useUploadFileOnSuccess, h]
  rfl

/-- Witness for the amended C5 at a concrete response carrying `task_id`
`"u1"`. -/
theorem C5_insert_after_success_witness :
    ((useUploadFileOnMutate initialTaskState initialUIState "n1" 0).1 =
      initialTaskState) ∧
    ((useUploadFileOnSuccess initialTaskState
        { task_id := some "u1", status := TaskStatus.pending } 7).tasks =
      [{ id := 0, task_id := "u1", original_filename := "Unknown",
         status := TaskStatus.pending, progress := 0, file_size := none,
         created_at := 7 }]) :=
  ⟨(C5_insert_after_success initialTaskState initialUIState "n1" 0 "e"
      { task_id := some "u1", status := TaskStatus.pending } "u1" rfl).1,
   (C5_insert_after_success initialTaskState initialUIState "n1" 7 "e"
      { task_id := some "u1", status := TaskStatus.pending } "u1" rfl).2.2⟩

/-- **C6, counterexample.** The claim states that `upsert`/`addTask` merges
into an existing entry when the `task_id` is already present and never
produces two entries with the same `task_id`. Adding a second task with id
`"a"` to a registry already holding `"a"` yields two entries with id `"a"`. -/
theorem C6_upsert_counterexample :
    ((addTask (addTask initialTaskState taskPendingA) dupTaskA).tasks.map
        Task.task_id = ["a", "a"]) ∧
    ¬ ((addTask (addTask initialTaskState taskPendingA) dupTaskA).tasks.map
        Task.task_id).Nodup := by
  decide

/-- **C6, amended.** `addTask` inserts the given task at the front of the list
unconditionally — it performs no duplicate check and no field merge, leaving
every existing entry (including one with the same `task_id`) in place. -/
theorem C6_addTask_always_prepends (st : TaskState) (t : Task) :
    ((addTask st t).tasks.length = st.tasks.length + 1) ∧
    ((addTask st t).tasks.head? = some t) ∧
    ((addTask st t).tasks.tail = st.tasks) ∧
    ((addTask st t).currentTask = st.currentTask) :=
  ⟨by simp [addTask], rfl, rfl, rfl⟩

end Audio2MidiFlow
